import Mathlib

/-!
Verification development for pdfminer/high_level.py: the extraction
orchestrator, consisting of the sink-writing entry point
extract_text_to_fp and the string-returning entry point extract_text.

The two entry points are embedded as trace-producing functions over an
abstract document and abstract collaborators.  Collaborators that live
outside high_level.py (PDFPage.get_pages, PDFResourceManager, the
converter classes, PDFPageInterpreter) are modelled from their contracts;
every step that high_level.py itself performs (argument validation,
collaborator construction order, device selection, the page loop with its
in-place rotation update, and the close call) is translated line by line
from the source.  A run is recorded as a list of events so that ordering
and counting properties (construction order, close discipline, page
effects) can be stated directly.
-/

namespace HighLevel

/-- A page produced by the Document Source.  In the source a PDFPage
carries a mutable rotate attribute; the orchestrator only reads and
writes that attribute, so the embedding keeps just it. -/
structure Page where
  rotate : Int
deriving Repr, DecidableEq

/-- Errors that a run can terminate with.  configurationError is never
raised by the source; it is included so that the spec's claim about
configuration errors is statable against the code. -/
inductive PDFError where
  | deprecationWarning
  | unboundLocalError
  | configurationError
  | decryptionError
  | permissionError
  | interpError (n : Nat)
deriving Repr, DecidableEq

/-- Layout parameters are an opaque configuration object for the
interpreter/layout collaborator; the orchestrator only constructs a
default one or passes the caller's through.  An opaque token models a
concrete LAParams instance; the default instance is the default token. -/
structure LAParams where
  token : Nat := 0
deriving Repr, DecidableEq

/-- The concrete Output Device selected by the orchestrator, carrying
exactly the constructor arguments high_level.py passes to each converter
class.  The image writer is modelled by its directory.  The float scale
of HTMLConverter is threaded opaquely (never computed on) and modelled as
a rational. -/
inductive PDFDevice where
  | textConverter (codec : String) (laparams : Option LAParams)
      (imagewriter : Option String)
  | xmlConverter (codec : String) (laparams : Option LAParams)
      (imagewriter : Option String) (stripcontrol : Bool)
  | htmlConverter (codec : String) (scale : Rat) (layoutmode : String)
      (laparams : Option LAParams) (imagewriter : Option String)
  | tagExtractor (codec : String)
deriving Repr, DecidableEq

/-- Observable events of one run, in program order. -/
inductive Event where
  | setDebugLogging
  | constructImageWriter (dir : String)
  | constructRsrcMgr (caching : Bool)
  | constructDevice (d : PDFDevice)
  | constructInterpreter
  | getPagesCall (caching : Bool)
  | processPage (p : Page)
  | closeDevice
  | sinkGetValue
  | closeSink
  | raise (e : PDFError)
deriving Repr, DecidableEq

/-- Abstract document handed to the Document Source: its page sequence
and the decryption / permission state the Document Source enforces. -/
structure PDFDocument where
  pages : List Page
  encrypted : Bool
  correctPassword : String
  extractable : Bool
deriving Repr, DecidableEq

/-- The keyword arguments of extract_text_to_fp (the source's **kwargs):
a list of key/value pairs; the only value type the orchestrator could
receive for the legacy sentinel is opaque, so an optional number stands
for any Python value, with none standing for Python's None. -/
abbrev Kwargs := List (String × Option Nat)

/-- The full configuration of extract_text_to_fp, one field per keyword
parameter of the source function, with the source's default values. -/
structure FpConfig where
  output_type : String := "text"
  codec : String := "utf-8"
  laparams : Option LAParams := none
  maxpages : Nat := 0
  page_numbers : Option (List Nat) := none
  password : String := ""
  scale : Rat := 1
  rotation : Int := 0
  layoutmode : String := "normal"
  output_dir : Option String := none
  strip_control : Bool := false
  debug : Bool := false
  disable_caching : Bool := false
  kwargs : Kwargs := []
deriving Repr, DecidableEq

/-- Modelled from the spec: the PDFResourceManager constructor
(pdfinterp.py, which is not under src/) takes a caching flag with a
default; caching defaults to enabled, matching extract_text's own
caching=True default in the source.  extract_text constructs
PDFResourceManager() without arguments, so this default is the flag the
Resource Manager actually receives there. -/
def pdfResourceManagerDefaultCaching : Bool := true

/-- Modelled from the spec (section 4.3): the page-selection policy of
PDFPage.get_pages.  If a page-number filter is given, only the
zero-indexed ordinals in it are yielded; a positive max-pages cap stops
enumeration after that many yielded (post-filter) pages. -/
def selectPages (pages : List Page) (page_numbers : Option (List Nat))
    (maxpages : Nat) : List Page :=
  match page_numbers with
  | none => if maxpages = 0 then pages else pages.take maxpages
  | some pns =>
      let filtered :=
        (pages.enum.filter (fun ip => decide (ip.1 ∈ pns))).map Prod.snd
      if maxpages = 0 then filtered else filtered.take maxpages

/-- Modelled from the spec: PDFPage.get_pages (pdfpage.py, not under
src/).  Per the collaborator contract of section 6 it enforces the
decryption check and then the extraction-permission check before
yielding the first page, then yields the filtered page sequence.  The
caching argument does not influence which pages are produced; the flag
passed by the orchestrator is recorded in the run trace at the call
site. -/
def PDFPage_get_pages (doc : PDFDocument) (page_numbers : Option (List Nat))
    (maxpages : Nat) (password : String) (caching : Bool)
    (check_extractable : Bool) : Except PDFError (List Page) :=
  if doc.encrypted = true ∧ password ≠ doc.correctPassword then
    Except.error PDFError.decryptionError
  else if check_extractable = true ∧ doc.extractable = false then
    Except.error PDFError.permissionError
  else
    Except.ok (selectPages doc.pages page_numbers maxpages)

/-- The rotation update the source applies to each yielded page before
interpretation: page.rotate = (page.rotate + rotation) % 360.  Python's
% on integers with a positive modulus is mathematical modulo, i.e.
Int.emod. -/
def appliedRotate (p : Page) (rotation : Int) : Page :=
  { p with rotate := (p.rotate + rotation) % 360 }

/-- Result of one run of either entry point: the event trace, the final
state of the Page objects the Document Source yielded (the source
mutates them in place), the pages whose interpretation effects reached
the device, the device that was bound, and the error the run raised, if
any. -/
structure RunResult where
  trace : List Event
  finalPages : List Page
  processed : List Page
  device : Option PDFDevice
  err : Option PDFError
deriving Repr, DecidableEq

/-- Result of the page loop. -/
structure LoopResult where
  events : List Event
  finalPages : List Page
  processed : List Page
  err : Option PDFError
deriving Repr, DecidableEq

/-- The page loop of extract_text_to_fp.  Each yielded page is mutated
first (its rotate attribute is overwritten) and then handed to the
interpreter; interpErr is the abstract Page Interpreter's failure
oracle (none = the page interprets cleanly, some n = the interpreter
raises).  On a failure the remaining pages are never yielded, hence
never mutated, and no further device effect occurs. -/
def processLoop (interpErr : Page → Option Nat) (rotation : Int) :
    List Page → LoopResult
  | [] => { events := [], finalPages := [], processed := [], err := none }
  | p :: ps =>
      let q := appliedRotate p rotation
      match interpErr q with
      | some n =>
          { events := [Event.raise (PDFError.interpError n)],
            finalPages := q :: ps, processed := [],
            err := some (PDFError.interpError n) }
      | none =>
          let r := processLoop interpErr rotation ps
          { events := Event.processPage q :: r.events,
            finalPages := q :: r.finalPages,
            processed := q :: r.processed, err := r.err }

/-- The page loop of extract_text, which performs no rotation update and
does not touch the yielded pages. -/
def processLoopNoRotate (interpErr : Page → Option Nat) :
    List Page → LoopResult
  | [] => { events := [], finalPages := [], processed := [], err := none }
  | p :: ps =>
      match interpErr p with
      | some n =>
          { events := [Event.raise (PDFError.interpError n)],
            finalPages := p :: ps, processed := [],
            err := some (PDFError.interpError n) }
      | none =>
          let r := processLoopNoRotate interpErr ps
          { events := Event.processPage p :: r.events,
            finalPages := p :: r.finalPages,
            processed := p :: r.processed, err := r.err }

/-- The device selection of extract_text_to_fp, translated from the two
separate conditionals of the source: first `if output_type == 'text'`
binds the TextConverter, then the `if 'xml' / elif 'html' / elif 'tag'`
chain binds the other three.  When the variant matches none of the four
cases the device name is never bound (the source has no else branch), so
selection yields none.  (The source's rebinding of outfp to
sys.stdout.buffer between the two conditionals does not change which
device is selected and the sink is abstract here.) -/
def selectDevice (cfg : FpConfig) (imagewriter : Option String) :
    Option PDFDevice :=
  let dev : Option PDFDevice :=
    if cfg.output_type = "text" then
      some (PDFDevice.textConverter cfg.codec cfg.laparams imagewriter)
    else none
  if cfg.output_type = "xml" then
    some (PDFDevice.xmlConverter cfg.codec cfg.laparams imagewriter
      cfg.strip_control)
  else if cfg.output_type = "html" then
    some (PDFDevice.htmlConverter cfg.codec cfg.scale cfg.layoutmode
      cfg.laparams imagewriter)
  else if cfg.output_type = "tag" then
    some (PDFDevice.tagExtractor cfg.codec)
  else dev

/-- The events extract_text_to_fp produces before device selection, in
source order: the debug branch mutating the process log level, the
optional ImageWriter construction, and the Resource Manager
construction with caching = not disable_caching. -/
def preEvents (cfg : FpConfig) : List Event :=
  (if cfg.debug then [Event.setDebugLogging] else []) ++
  (match cfg.output_dir with
   | some d => [Event.constructImageWriter d]
   | none => []) ++
  [Event.constructRsrcMgr (!cfg.disable_caching)]

/-- The events of extract_text_to_fp up to and including the get_pages
call, once a device has been bound. -/
def fpPre2 (cfg : FpConfig) (dev : PDFDevice) : List Event :=
  preEvents cfg ++
  [Event.constructDevice dev, Event.constructInterpreter,
   Event.getPagesCall (!cfg.disable_caching)]

/-- The sink-writing entry point extract_text_to_fp of high_level.py,
translated statement by statement.  The first conditional of the source
is the chained comparison `'_py2_no_more_posargs' in kwargs is not
None`, which Python evaluates as (key in kwargs) and (kwargs is not
None); kwargs is always a dict, never None, so the condition is key
membership alone and the bound value is irrelevant.  The six.PY2
password decode is skipped (the model is the Python 3 path), and Python
truthiness of output_dir is modelled by the option. -/
def extract_text_to_fp (doc : PDFDocument) (cfg : FpConfig)
    (interpErr : Page → Option Nat) : RunResult :=
  if "_py2_no_more_posargs" ∈ cfg.kwargs.map Prod.fst then
    { trace := [Event.raise PDFError.deprecationWarning], finalPages := [],
      processed := [], device := none,
      err := some PDFError.deprecationWarning }
  else
    match selectDevice cfg cfg.output_dir with
    | none =>
        { trace := preEvents cfg ++ [Event.raise PDFError.unboundLocalError],
          finalPages := [], processed := [], device := none,
          err := some PDFError.unboundLocalError }
    | some dev =>
        match PDFPage_get_pages doc cfg.page_numbers cfg.maxpages
            cfg.password (!cfg.disable_caching) true with
        | Except.error e =>
            { trace := fpPre2 cfg dev ++ [Event.raise e], finalPages := [],
              processed := [], device := some dev, err := some e }
        | Except.ok pages =>
            if (processLoop interpErr cfg.rotation pages).err = none then
              { trace := fpPre2 cfg dev ++
                  (processLoop interpErr cfg.rotation pages).events ++
                  [Event.closeDevice],
                finalPages := (processLoop interpErr cfg.rotation pages).finalPages,
                processed := (processLoop interpErr cfg.rotation pages).processed,
                device := some dev, err := none }
            else
              { trace := fpPre2 cfg dev ++
                  (processLoop interpErr cfg.rotation pages).events,
                finalPages := (processLoop interpErr cfg.rotation pages).finalPages,
                processed := (processLoop interpErr cfg.rotation pages).processed,
                device := some dev,
                err := (processLoop interpErr cfg.rotation pages).err }

/-- The TextConverter extract_text constructs: codec as given, laparams
defaulted to a fresh LAParams() when the caller passed none, and no
image writer. -/
def etDevice (co : String) (la : Option LAParams) : PDFDevice :=
  PDFDevice.textConverter co (some (la.getD {})) none

/-- The events of extract_text up to and including the get_pages call.
The Resource Manager is constructed as PDFResourceManager(), without the
caching argument, so it receives the constructor default; get_pages
receives the caller's caching argument. -/
def etPre (ca : Bool) (co : String) (la : Option LAParams) : List Event :=
  [Event.constructRsrcMgr pdfResourceManagerDefaultCaching,
   Event.constructDevice (etDevice co la), Event.constructInterpreter,
   Event.getPagesCall ca]

/-- The string-returning entry point extract_text of high_level.py,
translated statement by statement.  The with-statement closes the file
handle and the in-memory sink on every exit path; on the success path
getvalue() is evaluated before the with-block exits, so the sink's value
is captured and then the sink is closed.  No close call is made on the
device anywhere in the function. -/
def extract_text (doc : PDFDocument) (pw : String)
    (pn : Option (List Nat)) (mp : Nat) (ca : Bool) (co : String)
    (la : Option LAParams) (interpErr : Page → Option Nat) : RunResult :=
  match PDFPage_get_pages doc pn mp pw ca true with
  | Except.error e =>
      { trace := etPre ca co la ++ [Event.raise e, Event.closeSink],
        finalPages := [], processed := [], device := some (etDevice co la),
        err := some e }
  | Except.ok pages =>
      if (processLoopNoRotate interpErr pages).err = none then
        { trace := etPre ca co la ++
            (processLoopNoRotate interpErr pages).events ++
            [Event.sinkGetValue, Event.closeSink],
          finalPages := (processLoopNoRotate interpErr pages).finalPages,
          processed := (processLoopNoRotate interpErr pages).processed,
          device := some (etDevice co la), err := none }
      else
        { trace := etPre ca co la ++
            (processLoopNoRotate interpErr pages).events ++
            [Event.closeSink],
          finalPages := (processLoopNoRotate interpErr pages).finalPages,
          processed := (processLoopNoRotate interpErr pages).processed,
          device := some (etDevice co la),
          err := (processLoopNoRotate interpErr pages).err }

/-- The value extract_text returns on success: the full content the
device accumulated in the in-memory sink, rendered by the deterministic
serialization collaborator (render) from the device configuration and
the pages whose effects reached it. -/
def returnedText (render : PDFDevice → List Page → String)
    (r : RunResult) : Option String :=
  if r.err = none then
    match r.device with
    | some d => some (render d r.processed)
    | none => none
  else none

/-- The content a run left in its sink, rendered by the deterministic
serialization collaborator from the device configuration and the pages
whose effects reached the device. -/
def sinkValue (render : PDFDevice → List Page → String)
    (r : RunResult) : String :=
  match r.device with
  | some d => render d r.processed
  | none => ""

/-- Config with the text variant, an explicit default LAParams instance
and a given codec; all other arguments at their source defaults. -/
def textCfg (co : String) : FpConfig := { codec := co, laparams := some {} }

/-- Interpreter oracle for concrete runs in which every page interprets
cleanly. -/
def noErr : Page → Option Nat := fun _ => none

/-- A small unencrypted, extractable two-page document. -/
def doc0 : PDFDocument :=
  { pages := [{ rotate := 0 }, { rotate := 90 }], encrypted := false,
    correctPassword := "", extractable := true }

/-- A one-page unencrypted document. -/
def doc1 : PDFDocument :=
  { pages := [{ rotate := 270 }], encrypted := false,
    correctPassword := "", extractable := true }

/-- A one-page document whose single page has intrinsic rotation 0. -/
def doc6 : PDFDocument :=
  { pages := [{ rotate := 0 }], encrypted := false,
    correctPassword := "", extractable := true }

/-- An encrypted document whose password is "secret". -/
def docEnc : PDFDocument :=
  { pages := [{ rotate := 0 }], encrypted := true,
    correctPassword := "secret", extractable := true }

/-- The default configuration (text variant). -/
def cfgText : FpConfig := {}

/-- A configuration whose output variant is outside the enumerated set. -/
def cfgFoo : FpConfig := { output_type := "foo" }

/-- Text variant with a rotation delta of 90 degrees. -/
def cfgRot90 : FpConfig := { rotation := 90 }

/-- Tag variant configuration. -/
def cfgTag : FpConfig := { output_type := "tag" }

/-! ## Trace anatomy lemmas -/

lemma mem_preEvents {cfg : FpConfig} {e : Event} (h : e ∈ preEvents cfg) :
    e = Event.setDebugLogging ∨ (∃ d, e = Event.constructImageWriter d) ∨
    e = Event.constructRsrcMgr (!cfg.disable_caching) := by
  unfold preEvents at h
  rcases List.mem_append.1 h with h1 | h1
  · rcases List.mem_append.1 h1 with h2 | h2
    · split at h2 <;> simp_all
    · split at h2 <;> simp_all
  · simp_all

lemma mem_fpPre2 {cfg : FpConfig} {dev : PDFDevice} {e : Event}
    (h : e ∈ fpPre2 cfg dev) :
    e = Event.setDebugLogging ∨ (∃ d, e = Event.constructImageWriter d) ∨
    e = Event.constructRsrcMgr (!cfg.disable_caching) ∨
    e = Event.constructDevice dev ∨ e = Event.constructInterpreter ∨
    e = Event.getPagesCall (!cfg.disable_caching) := by
  unfold fpPre2 at h
  rcases List.mem_append.1 h with h1 | h1
  · rcases mem_preEvents h1 with h2 | h2 | h2 <;> tauto
  · simp_all

lemma constructRsrcMgr_mem_preEvents (cfg : FpConfig) :
    Event.constructRsrcMgr (!cfg.disable_caching) ∈ preEvents cfg := by
  unfold preEvents; simp

lemma processLoop_ok (ie : Page → Option Nat) (rot : Int) (ps : List Page)
    (h : ∀ p, ie p = none) :
    processLoop ie rot ps =
      { events := ps.map (fun p => Event.processPage (appliedRotate p rot)),
        finalPages := ps.map (fun p => appliedRotate p rot),
        processed := ps.map (fun p => appliedRotate p rot), err := none } := by
  induction ps with
  | nil => rfl
  | cons p ps ih => simp [processLoop, h, ih]

lemma processLoopNoRotate_ok (ie : Page → Option Nat) (ps : List Page)
    (h : ∀ p, ie p = none) :
    processLoopNoRotate ie ps =
      { events := ps.map Event.processPage, finalPages := ps,
        processed := ps, err := none } := by
  induction ps with
  | nil => rfl
  | cons p ps ih => simp [processLoopNoRotate, h, ih]

lemma processLoop_events_shape (ie : Page → Option Nat) (rot : Int)
    (ps : List Page) {e : Event} (he : e ∈ (processLoop ie rot ps).events) :
    (∃ p, p ∈ ps ∧ e = Event.processPage (appliedRotate p rot)) ∨
    (∃ n, e = Event.raise (PDFError.interpError n)) := by
  induction ps with
  | nil => simp [processLoop] at he
  | cons p ps ih =>
      rw [processLoop] at he
      rcases h : ie (appliedRotate p rot) with _ | n
      · rw [h] at he
        simp only [List.mem_cons] at he
        rcases he with he | he
        · exact Or.inl ⟨p, by simp, he⟩
        · rcases ih he with ⟨q, hq, hq2⟩ | hr
          · exact Or.inl ⟨q, by simp [hq], hq2⟩
          · exact Or.inr hr
      · rw [h] at he
        simp only [List.mem_singleton] at he
        exact Or.inr ⟨n, he⟩

lemma processLoopNoRotate_events_shape (ie : Page → Option Nat)
    (ps : List Page) {e : Event}
    (he : e ∈ (processLoopNoRotate ie ps).events) :
    (∃ p, p ∈ ps ∧ e = Event.processPage p) ∨
    (∃ n, e = Event.raise (PDFError.interpError n)) := by
  induction ps with
  | nil => simp [processLoopNoRotate] at he
  | cons p ps ih =>
      rw [processLoopNoRotate] at he
      rcases h : ie p with _ | n
      · rw [h] at he
        simp only [List.mem_cons] at he
        rcases he with he | he
        · exact Or.inl ⟨p, by simp, he⟩
        · rcases ih he with ⟨q, hq, hq2⟩ | hr
          · exact Or.inl ⟨q, by simp [hq], hq2⟩
          · exact Or.inr hr
      · rw [h] at he
        simp only [List.mem_singleton] at he
        exact Or.inr ⟨n, he⟩

lemma closeDevice_not_mem_processLoop (ie : Page → Option Nat) (rot : Int)
    (ps : List Page) : Event.closeDevice ∉ (processLoop ie rot ps).events := by
  intro h
  rcases processLoop_events_shape ie rot ps h with ⟨p, _, hp⟩ | ⟨n, hn⟩ <;>
    simp_all

lemma closeDevice_not_mem_processLoopNoRotate (ie : Page → Option Nat)
    (ps : List Page) :
    Event.closeDevice ∉ (processLoopNoRotate ie ps).events := by
  intro h
  rcases processLoopNoRotate_events_shape ie ps h with ⟨p, _, hp⟩ | ⟨n, hn⟩ <;>
    simp_all

lemma closeDevice_not_mem_fpPre2 (cfg : FpConfig) (dev : PDFDevice) :
    Event.closeDevice ∉ fpPre2 cfg dev := by
  intro h
  rcases mem_fpPre2 h with h | h | h | h | h | h <;> simp_all

lemma closeDevice_not_mem_etPre (ca : Bool) (co : String)
    (la : Option LAParams) : Event.closeDevice ∉ etPre ca co la := by
  unfold etPre; simp

lemma get_pages_error_shape {doc : PDFDocument} {pn : Option (List Nat)}
    {mp : Nat} {pw : String} {ca ce : Bool} {e : PDFError}
    (h : PDFPage_get_pages doc pn mp pw ca ce = Except.error e) :
    e = PDFError.decryptionError ∨ e = PDFError.permissionError := by
  unfold PDFPage_get_pages at h
  split at h
  · simp_all
  · split at h <;> simp_all

lemma selectDevice_none {cfg : FpConfig} (iw : Option String)
    (ht : cfg.output_type ∉ (["text", "xml", "html", "tag"] : List String)) :
    selectDevice cfg iw = none := by
  simp only [List.mem_cons, List.not_mem_nil, or_false] at ht
  push_neg at ht
  obtain ⟨h1, h2, h3, h4⟩ := ht
  simp [selectDevice, h1, h2, h3, h4]

lemma selectDevice_isSome_of_mem {cfg : FpConfig} (iw : Option String)
    (ht : cfg.output_type ∈ (["text", "xml", "html", "tag"] : List String)) :
    ∃ dev, selectDevice cfg iw = some dev := by
  simp only [List.mem_cons, List.not_mem_nil, or_false] at ht
  rcases ht with h | h | h | h
  · exact ⟨PDFDevice.textConverter cfg.codec cfg.laparams iw,
      by simp [selectDevice, h]⟩
  · exact ⟨PDFDevice.xmlConverter cfg.codec cfg.laparams iw cfg.strip_control,
      by simp [selectDevice, h]⟩
  · exact ⟨PDFDevice.htmlConverter cfg.codec cfg.scale cfg.layoutmode
      cfg.laparams iw, by simp [selectDevice, h]⟩
  · exact ⟨PDFDevice.tagExtractor cfg.codec, by simp [selectDevice, h]⟩

lemma appliedRotate_lt (p : Page) (d : Int) :
    0 ≤ (appliedRotate p d).rotate ∧ (appliedRotate p d).rotate < 360 :=
  ⟨Int.emod_nonneg _ (by decide), Int.emod_lt_of_pos _ (by decide)⟩

lemma appliedRotate_zero {p : Page} (h0 : 0 ≤ p.rotate)
    (h1 : p.rotate < 360) : appliedRotate p 0 = p := by
  cases p with
  | mk r =>
      simp only [appliedRotate, add_zero]
      exact congrArg Page.mk (Int.emod_eq_of_lt h0 h1)

lemma map_appliedRotate_zero {ps : List Page}
    (h : ∀ p ∈ ps, 0 ≤ p.rotate ∧ p.rotate < 360) :
    ps.map (fun p => appliedRotate p 0) = ps := by
  induction ps with
  | nil => rfl
  | cons p ps ih =>
      have hp := h p (by simp)
      simp only [List.map_cons, appliedRotate_zero hp.1 hp.2,
        ih (fun q hq => h q (by simp [hq]))]

lemma closeDevice_not_mem_preEvents (cfg : FpConfig) :
    Event.closeDevice ∉ preEvents cfg := by
  intro h
  rcases mem_preEvents h with h | ⟨d, h⟩ | h <;> simp_all

/-- Exhaustive case analysis of one run of extract_text_to_fp: the run
takes exactly one of five exit paths, and on each the result is the
corresponding literal. -/
lemma fp_run_cases (doc : PDFDocument) (cfg : FpConfig)
    (ie : Page → Option Nat) :
    ("_py2_no_more_posargs" ∈ cfg.kwargs.map Prod.fst ∧
      extract_text_to_fp doc cfg ie =
        { trace := [Event.raise PDFError.deprecationWarning],
          finalPages := [], processed := [], device := none,
          err := some PDFError.deprecationWarning }) ∨
    ("_py2_no_more_posargs" ∉ cfg.kwargs.map Prod.fst ∧
      ((selectDevice cfg cfg.output_dir = none ∧
        extract_text_to_fp doc cfg ie =
          { trace := preEvents cfg ++ [Event.raise PDFError.unboundLocalError],
            finalPages := [], processed := [], device := none,
            err := some PDFError.unboundLocalError }) ∨
      (∃ dev, selectDevice cfg cfg.output_dir = some dev ∧
        ((∃ e, PDFPage_get_pages doc cfg.page_numbers cfg.maxpages
              cfg.password (!cfg.disable_caching) true = Except.error e ∧
          extract_text_to_fp doc cfg ie =
            { trace := fpPre2 cfg dev ++ [Event.raise e], finalPages := [],
              processed := [], device := some dev, err := some e }) ∨
        (∃ pages, PDFPage_get_pages doc cfg.page_numbers cfg.maxpages
              cfg.password (!cfg.disable_caching) true = Except.ok pages ∧
          (((processLoop ie cfg.rotation pages).err = none ∧
            extract_text_to_fp doc cfg ie =
              { trace := fpPre2 cfg dev ++
                  (processLoop ie cfg.rotation pages).events ++
                  [Event.closeDevice],
                finalPages := (processLoop ie cfg.rotation pages).finalPages,
                processed := (processLoop ie cfg.rotation pages).processed,
                device := some dev, err := none }) ∨
          ((processLoop ie cfg.rotation pages).err ≠ none ∧
            extract_text_to_fp doc cfg ie =
              { trace := fpPre2 cfg dev ++
                  (processLoop ie cfg.rotation pages).events,
                finalPages := (processLoop ie cfg.rotation pages).finalPages,
                processed := (processLoop ie cfg.rotation pages).processed,
                device := some dev,
                err := (processLoop ie cfg.rotation pages).err }))))))) := by
  by_cases hk : "_py2_no_more_posargs" ∈ cfg.kwargs.map Prod.fst
  · exact Or.inl ⟨hk, by simp [extract_text_to_fp, hk]⟩
  · refine Or.inr ⟨hk, ?_⟩
    rcases hsel : selectDevice cfg cfg.output_dir with _ | dev
    · exact Or.inl ⟨rfl, by simp [extract_text_to_fp, hk, hsel]⟩
    · refine Or.inr ⟨dev, rfl, ?_⟩
      rcases hgp : PDFPage_get_pages doc cfg.page_numbers cfg.maxpages
          cfg.password (!cfg.disable_caching) true with e | pages
      · exact Or.inl ⟨e, rfl, by simp [extract_text_to_fp, hk, hsel, hgp]⟩
      · refine Or.inr ⟨pages, rfl, ?_⟩
        by_cases hle : (processLoop ie cfg.rotation pages).err = none
        · exact Or.inl ⟨hle, by simp [extract_text_to_fp, hk, hsel, hgp, hle]⟩
        · exact Or.inr ⟨hle, by simp [extract_text_to_fp, hk, hsel, hgp, hle]⟩

/-- Exhaustive case analysis of one run of extract_text. -/
lemma et_run_cases (doc : PDFDocument) (pw : String) (pn : Option (List Nat))
    (mp : Nat) (ca : Bool) (co : String) (la : Option LAParams)
    (ie : Page → Option Nat) :
    (∃ e, PDFPage_get_pages doc pn mp pw ca true = Except.error e ∧
      extract_text doc pw pn mp ca co la ie =
        { trace := etPre ca co la ++ [Event.raise e, Event.closeSink],
          finalPages := [], processed := [],
          device := some (etDevice co la), err := some e }) ∨
    (∃ pages, PDFPage_get_pages doc pn mp pw ca true = Except.ok pages ∧
      (((processLoopNoRotate ie pages).err = none ∧
        extract_text doc pw pn mp ca co la ie =
          { trace := etPre ca co la ++
              (processLoopNoRotate ie pages).events ++
              [Event.sinkGetValue, Event.closeSink],
            finalPages := (processLoopNoRotate ie pages).finalPages,
            processed := (processLoopNoRotate ie pages).processed,
            device := some (etDevice co la), err := none }) ∨
      ((processLoopNoRotate ie pages).err ≠ none ∧
        extract_text doc pw pn mp ca co la ie =
          { trace := etPre ca co la ++
              (processLoopNoRotate ie pages).events ++ [Event.closeSink],
            finalPages := (processLoopNoRotate ie pages).finalPages,
            processed := (processLoopNoRotate ie pages).processed,
            device := some (etDevice co la),
            err := (processLoopNoRotate ie pages).err }))) := by
  rcases hgp : PDFPage_get_pages doc pn mp pw ca true with e | pages
  · exact Or.inl ⟨e, rfl, by simp [extract_text, hgp]⟩
  · refine Or.inr ⟨pages, rfl, ?_⟩
    by_cases hle : (processLoopNoRotate ie pages).err = none
    · exact Or.inl ⟨hle, by simp [extract_text, hgp, hle]⟩
    · exact Or.inr ⟨hle, by simp [extract_text, hgp, hle]⟩

lemma et_closeDevice_count (doc : PDFDocument) (pw : String)
    (pn : Option (List Nat)) (mp : Nat) (ca : Bool) (co : String)
    (la : Option LAParams) (ie : Page → Option Nat) :
    (extract_text doc pw pn mp ca co la ie).trace.count Event.closeDevice
      = 0 := by
  rw [List.count_eq_zero]
  intro hm
  rcases et_run_cases doc pw pn mp ca co la ie with
    ⟨e, hgp, hrun⟩ | ⟨pages, hgp, ⟨hle, hrun⟩ | ⟨hle, hrun⟩⟩ <;>
    rw [hrun] at hm <;> simp only [List.mem_append] at hm
  · rcases hm with h | h
    · exact closeDevice_not_mem_etPre ca co la h
    · simp_all
  · rcases hm with (h | h) | h
    · exact closeDevice_not_mem_etPre ca co la h
    · exact closeDevice_not_mem_processLoopNoRotate ie pages h
    · simp_all
  · rcases hm with (h | h) | h
    · exact closeDevice_not_mem_etPre ca co la h
    · exact closeDevice_not_mem_processLoopNoRotate ie pages h
    · simp_all

lemma map_processPage_appliedRotate_zero {ps : List Page}
    (h : ∀ p ∈ ps, 0 ≤ p.rotate ∧ p.rotate < 360) :
    ps.map (fun p => Event.processPage (appliedRotate p 0)) =
      ps.map Event.processPage := by
  induction ps with
  | nil => rfl
  | cons p ps ih =>
      have hp := h p (by simp)
      simp only [List.map_cons, appliedRotate_zero hp.1 hp.2,
        ih (fun q hq => h q (by simp [hq]))]

/-- A concrete deterministic serialization collaborator used in
witnesses: one character per page effect. -/
def renderLen : PDFDevice → List Page → String :=
  fun _ ps => String.join (ps.map (fun _ => "p"))

/-! ## Claims -/

/-- Claim C1 counterexample.  The claim states that a call whose output
variant is outside {text, xml, html, tag} fails with a configuration
error before any collaborator is constructed.  On the concrete run with
output variant "foo" the code instead raises an UnboundLocalError (the
device name is never bound and the interpreter construction dereferences
it), and that failure happens after the Resource Manager has already
been constructed. -/
theorem C1_counterexample :
    cfgFoo.output_type ∉ (["text", "xml", "html", "tag"] : List String) ∧
    (extract_text_to_fp doc0 cfgFoo noErr).err ≠
      some PDFError.configurationError ∧
    Event.constructRsrcMgr true ∈ (extract_text_to_fp doc0 cfgFoo noErr).trace
    := by decide

/-- Claim C1 (amended): for every call to extract_text_to_fp whose output
variant is outside {text, xml, html, tag} (and that does not trip the
legacy-kwarg check first), the run fails with an UnboundLocalError when
the interpreter is constructed; the Resource Manager has already been
constructed at that point, while no Output Device is constructed, the
interpreter is never built, the Document Source is never asked for pages,
no page is interpreted and the device is never closed. -/
theorem C1_invalid_variant_behavior (doc : PDFDocument) (cfg : FpConfig)
    (ie : Page → Option Nat)
    (hk : "_py2_no_more_posargs" ∉ cfg.kwargs.map Prod.fst)
    (ht : cfg.output_type ∉ (["text", "xml", "html", "tag"] : List String)) :
    (extract_text_to_fp doc cfg ie).err = some PDFError.unboundLocalError ∧
    Event.constructRsrcMgr (!cfg.disable_caching) ∈
      (extract_text_to_fp doc cfg ie).trace ∧
    (∀ d, Event.constructDevice d ∉ (extract_text_to_fp doc cfg ie).trace) ∧
    Event.constructInterpreter ∉ (extract_text_to_fp doc cfg ie).trace ∧
    (∀ b, Event.getPagesCall b ∉ (extract_text_to_fp doc cfg ie).trace) ∧
    (∀ q, Event.processPage q ∉ (extract_text_to_fp doc cfg ie).trace) ∧
    Event.closeDevice ∉ (extract_text_to_fp doc cfg ie).trace := by
  have hsel := selectDevice_none cfg.output_dir ht
  have hrun : extract_text_to_fp doc cfg ie =
      { trace := preEvents cfg ++ [Event.raise PDFError.unboundLocalError],
        finalPages := [], processed := [], device := none,
        err := some PDFError.unboundLocalError } := by
    simp [extract_text_to_fp, hk, hsel]
  rw [hrun]
  refine ⟨rfl, ?_, ?_, ?_, ?_, ?_, ?_⟩
  · exact List.mem_append.2 (Or.inl (constructRsrcMgr_mem_preEvents cfg))
  · intro d hd
    rcases List.mem_append.1 hd with h | h
    · rcases mem_preEvents h with h | ⟨d2, h⟩ | h <;> simp_all
    · simp_all
  · intro hd
    rcases List.mem_append.1 hd with h | h
    · rcases mem_preEvents h with h | ⟨d2, h⟩ | h <;> simp_all
    · simp_all
  · intro b hd
    rcases List.mem_append.1 hd with h | h
    · rcases mem_preEvents h with h | ⟨d2, h⟩ | h <;> simp_all
    · simp_all
  · intro q hd
    rcases List.mem_append.1 hd with h | h
    · rcases mem_preEvents h with h | ⟨d2, h⟩ | h <;> simp_all
    · simp_all
  · intro hd
    rcases List.mem_append.1 hd with h | h
    · rcases mem_preEvents h with h | ⟨d2, h⟩ | h <;> simp_all
    · simp_all

/-- Claim C1 amended-theorem witness at a concrete run. -/
theorem C1_invalid_variant_behavior_witness :
    (extract_text_to_fp doc0 cfgFoo noErr).err =
      some PDFError.unboundLocalError ∧
    Event.constructRsrcMgr (!cfgFoo.disable_caching) ∈
      (extract_text_to_fp doc0 cfgFoo noErr).trace := by
  have h := C1_invalid_variant_behavior doc0 cfgFoo noErr (by decide) (by decide)
  exact ⟨h.1, h.2.1⟩

/-- Claim C2, evaluated at the failing input.  In extract_text_to_fp the
Resource Manager and the getPages call both receive NOT disable_caching
(first two conjuncts, at the default configuration).  In extract_text,
however, the Resource Manager is constructed without the caching
argument and so receives the constructor default, while getPages
receives the caller's caching argument: calling extract_text with
caching equal to the negation of that default makes the two flags
differ within one run, violating the claimed invariant. -/
theorem C2_caching_mismatch :
    Event.constructRsrcMgr true ∈
      (extract_text_to_fp doc0 cfgText noErr).trace ∧
    Event.getPagesCall true ∈ (extract_text_to_fp doc0 cfgText noErr).trace ∧
    Event.constructRsrcMgr pdfResourceManagerDefaultCaching ∈
      (extract_text doc0 "" none 0 (!pdfResourceManagerDefaultCaching)
        "utf-8" none noErr).trace ∧
    Event.getPagesCall (!pdfResourceManagerDefaultCaching) ∈
      (extract_text doc0 "" none 0 (!pdfResourceManagerDefaultCaching)
        "utf-8" none noErr).trace ∧
    pdfResourceManagerDefaultCaching ≠ !pdfResourceManagerDefaultCaching
    := by decide

/-- Claim C3 counterexample.  The claim states the device close
operation is invoked exactly once on every run of either entry point; a
successful run of extract_text invokes it zero times. -/
theorem C3_counterexample :
    (extract_text doc0 "" none 0 true "utf-8" none noErr).err = none ∧
    (extract_text doc0 "" none 0 true "utf-8" none noErr).trace.count
      Event.closeDevice = 0 := by decide

/-- Claim C3 (amended): in extract_text_to_fp, a run that completes
normally invokes the device close operation exactly once, as the last
event (hence after all interpreted pages); a run that exits with an
error (legacy kwarg, unbound device, Document Source error, or Page
Interpreter error) never invokes it.  extract_text never invokes the
device close operation on any exit path. -/
theorem C3_close_discipline (doc : PDFDocument) (cfg : FpConfig)
    (ie : Page → Option Nat) (doc2 : PDFDocument) (pw : String)
    (pn : Option (List Nat)) (mp : Nat) (ca : Bool) (co : String)
    (la : Option LAParams) (ie2 : Page → Option Nat) :
    ((extract_text_to_fp doc cfg ie).err = none →
      (extract_text_to_fp doc cfg ie).trace.count Event.closeDevice = 1 ∧
      (extract_text_to_fp doc cfg ie).trace.getLast? =
        some Event.closeDevice) ∧
    ((extract_text_to_fp doc cfg ie).err ≠ none →
      (extract_text_to_fp doc cfg ie).trace.count Event.closeDevice = 0) ∧
    (extract_text doc2 pw pn mp ca co la ie2).trace.count Event.closeDevice
      = 0 := by
  refine ⟨?_, ?_, et_closeDevice_count doc2 pw pn mp ca co la ie2⟩
  · intro hnone
    rcases fp_run_cases doc cfg ie with ⟨hk, hrun⟩ |
      ⟨hk, ⟨hsel, hrun⟩ | ⟨dev, hsel, ⟨e, hgp, hrun⟩ |
        ⟨pages, hgp, ⟨hle, hrun⟩ | ⟨hle, hrun⟩⟩⟩⟩
    · rw [hrun] at hnone; simp at hnone
    · rw [hrun] at hnone; simp at hnone
    · rw [hrun] at hnone; simp at hnone
    · rw [hrun]
      constructor
      · have h1 := List.count_eq_zero.2 (closeDevice_not_mem_fpPre2 cfg dev)
        have h2 := List.count_eq_zero.2
          (closeDevice_not_mem_processLoop ie cfg.rotation pages)
        simp [List.count_append, h1, h2]
      · simp [List.getLast?_append]
    · rw [hrun] at hnone
      exact absurd hnone hle
  · intro hne
    rcases fp_run_cases doc cfg ie with ⟨hk, hrun⟩ |
      ⟨hk, ⟨hsel, hrun⟩ | ⟨dev, hsel, ⟨e, hgp, hrun⟩ |
        ⟨pages, hgp, ⟨hle, hrun⟩ | ⟨hle, hrun⟩⟩⟩⟩
    · rw [hrun]; decide
    · rw [hrun]
      have h1 := List.count_eq_zero.2 (closeDevice_not_mem_preEvents cfg)
      simp [List.count_append, h1]
    · rw [hrun]
      have h1 := List.count_eq_zero.2 (closeDevice_not_mem_fpPre2 cfg dev)
      have h3 : Event.closeDevice ∉ [Event.raise e] := by simp
      simp [List.count_append, h1, List.count_eq_zero.2 h3]
    · rw [hrun] at hne; simp at hne
    · rw [hrun]
      have h1 := List.count_eq_zero.2 (closeDevice_not_mem_fpPre2 cfg dev)
      have h2 := List.count_eq_zero.2
        (closeDevice_not_mem_processLoop ie cfg.rotation pages)
      simp [List.count_append, h1, h2]

/-- Claim C3 amended-theorem witness: a successful extract_text_to_fp
run closes the device exactly once; an extract_text run never does. -/
theorem C3_close_discipline_witness :
    (extract_text_to_fp doc0 cfgText noErr).trace.count Event.closeDevice
      = 1 ∧
    (extract_text doc0 "" none 0 true "utf-8" none noErr).trace.count
      Event.closeDevice = 0 := by
  have h := C3_close_discipline doc0 cfgText noErr doc0 "" none 0 true
    "utf-8" none noErr
  exact ⟨(h.1 (by decide)).1, h.2.2⟩

/-- Claim C4 counterexample.  The claim states that on a successful
extract_text call both the sink and the Output Device have been closed
before the value is returned; on this successful concrete run the
device close operation never appears in the trace. -/
theorem C4_counterexample :
    (extract_text doc1 "" none 0 true "utf-8" none noErr).err = none ∧
    Event.closeDevice ∉
      (extract_text doc1 "" none 0 true "utf-8" none noErr).trace := by
  decide

/-- Claim C4 (amended): on every successful extract_text call the
returned string is the full text the device accumulated in the internal
in-memory sink (the rendering of all selected pages, in order), the
value is captured from the sink and the sink is then closed as the last
two events of the run (hence before the value is returned), but the
Output Device is never closed. -/
theorem C4_extract_text_returns (render : PDFDevice → List Page → String)
    (doc : PDFDocument) (pw : String) (pn : Option (List Nat)) (mp : Nat)
    (ca : Bool) (co : String) (la : Option LAParams)
    (ie : Page → Option Nat) (ps : List Page)
    (hg : PDFPage_get_pages doc pn mp pw ca true = Except.ok ps)
    (hie : ∀ p, ie p = none) :
    (extract_text doc pw pn mp ca co la ie).err = none ∧
    returnedText render (extract_text doc pw pn mp ca co la ie) =
      some (render (etDevice co la) ps) ∧
    (extract_text doc pw pn mp ca co la ie).processed = ps ∧
    (∃ l, (extract_text doc pw pn mp ca co la ie).trace =
      l ++ [Event.sinkGetValue, Event.closeSink]) ∧
    (extract_text doc pw pn mp ca co la ie).trace.count Event.closeDevice
      = 0 := by
  have hloop := processLoopNoRotate_ok ie ps hie
  have hrun : extract_text doc pw pn mp ca co la ie =
      { trace := etPre ca co la ++ ps.map Event.processPage ++
          [Event.sinkGetValue, Event.closeSink],
        finalPages := ps, processed := ps,
        device := some (etDevice co la), err := none } := by
    simp [extract_text, hg, hloop]
  rw [hrun]
  refine ⟨rfl, by simp [returnedText], rfl,
    ⟨etPre ca co la ++ ps.map Event.processPage, rfl⟩, ?_⟩
  have h1 := List.count_eq_zero.2 (closeDevice_not_mem_etPre ca co la)
  have h2 : Event.closeDevice ∉ ps.map Event.processPage := by simp
  have h3 : Event.closeDevice ∉ [Event.sinkGetValue, Event.closeSink] := by
    decide
  simp [List.count_append, h1, List.count_eq_zero.2 h2,
    List.count_eq_zero.2 h3]

/-- Claim C4 amended-theorem witness at a concrete run. -/
theorem C4_extract_text_returns_witness :
    returnedText renderLen
        (extract_text doc1 "" none 0 true "utf-8" none noErr) =
      some (renderLen (etDevice "utf-8" none) doc1.pages) ∧
    (extract_text doc1 "" none 0 true "utf-8" none noErr).trace.count
      Event.closeDevice = 0 := by
  have h := C4_extract_text_returns renderLen doc1 "" none 0 true "utf-8"
    none noErr doc1.pages (by rfl) (fun p => rfl)
  exact ⟨h.2.1, h.2.2.2.2⟩

/-- Claim C5: for a page with intrinsic rotation r in [0, 360) and any
integer rotation delta d, the rotation value the loop presents to the
interpreter (the appliedRotate update, page.rotate = (page.rotate +
rotation) % 360 with Python's mathematical modulo) equals (r + d) mod
360 and lies in [0, 360). -/
theorem C5_effective_rotation (p : Page) (d : Int) (h0 : 0 ≤ p.rotate)
    (h1 : p.rotate < 360) :
    (appliedRotate p d).rotate = (p.rotate + d) % 360 ∧
    0 ≤ (appliedRotate p d).rotate ∧ (appliedRotate p d).rotate < 360 :=
  ⟨rfl, appliedRotate_lt p d⟩

/-- Claim C5 witness: intrinsic rotation 90 with delta -450 yields
effective rotation (90 - 450) mod 360 = 0, inside [0, 360). -/
theorem C5_effective_rotation_witness :
    (appliedRotate { rotate := 90 } (-450)).rotate = (90 + -450) % 360 ∧
    0 ≤ (appliedRotate { rotate := 90 } (-450)).rotate ∧
    (appliedRotate { rotate := 90 } (-450)).rotate < 360 :=
  C5_effective_rotation { rotate := 90 } (-450) (by decide) (by decide)

/-- Claim C6 counterexample.  The claim states that applying the
rotation delta does not mutate the Document Source's pages: after a run
with a nonzero delta every produced Page still carries its intrinsic
rotation.  On this concrete run (one page of intrinsic rotation 0,
delta 90) the produced Page object ends the run carrying rotation 90. -/
theorem C6_counterexample :
    cfgRot90.rotation ≠ 0 ∧
    doc6.pages = [{ rotate := 0 }] ∧
    (extract_text_to_fp doc6 cfgRot90 noErr).err = none ∧
    (extract_text_to_fp doc6 cfgRot90 noErr).finalPages = [{ rotate := 90 }]
    := by decide

/-- Claim C6 (amended): extract_text_to_fp applies the rotation delta by
overwriting each yielded Page's rotate attribute in place; after a
normally completing run every Page the Document Source produced carries
(intrinsic rotation + delta) mod 360 rather than its intrinsic
rotation. -/
theorem C6_pages_mutated (doc : PDFDocument) (cfg : FpConfig)
    (ie : Page → Option Nat) (dev : PDFDevice) (ps : List Page)
    (hk : "_py2_no_more_posargs" ∉ cfg.kwargs.map Prod.fst)
    (hdev : selectDevice cfg cfg.output_dir = some dev)
    (hg : PDFPage_get_pages doc cfg.page_numbers cfg.maxpages cfg.password
      (!cfg.disable_caching) true = Except.ok ps)
    (hie : ∀ p, ie p = none) :
    (extract_text_to_fp doc cfg ie).finalPages =
      ps.map (fun p => appliedRotate p cfg.rotation) := by
  have hloop := processLoop_ok ie cfg.rotation ps hie
  have hrun : extract_text_to_fp doc cfg ie =
      { trace := fpPre2 cfg dev ++
          ps.map (fun p => Event.processPage (appliedRotate p cfg.rotation)) ++
          [Event.closeDevice],
        finalPages := ps.map (fun p => appliedRotate p cfg.rotation),
        processed := ps.map (fun p => appliedRotate p cfg.rotation),
        device := some dev, err := none } := by
    simp [extract_text_to_fp, hk, hdev, hg, hloop]
  rw [hrun]

/-- Claim C6 amended-theorem witness at a concrete run. -/
theorem C6_pages_mutated_witness :
    (extract_text_to_fp doc6 cfgRot90 noErr).finalPages =
      doc6.pages.map (fun p => appliedRotate p cfgRot90.rotation) :=
  C6_pages_mutated doc6 cfgRot90 noErr
    (PDFDevice.textConverter "utf-8" none none) doc6.pages (by decide)
    (by rfl) (by rfl) (fun p => rfl)

/-- Claim C7: on an encrypted document with an incorrect password (and a
configuration that reaches the Document Source: the variant is one of
the four enumerated ones and the legacy kwarg is absent), both entry
points fail with the DecryptionError raised by the Document Source and
no page is ever interpreted: the trace of either run contains no
page-interpretation effect, so the Output Device — though constructed —
receives zero page effects before the error propagates. -/
theorem C7_wrong_password (doc : PDFDocument) (cfg : FpConfig)
    (ie ie2 : Page → Option Nat) (pw : String) (pn : Option (List Nat))
    (mp : Nat) (ca : Bool) (co : String) (la : Option LAParams)
    (hk : "_py2_no_more_posargs" ∉ cfg.kwargs.map Prod.fst)
    (ht : cfg.output_type ∈ (["text", "xml", "html", "tag"] : List String))
    (henc : doc.encrypted = true)
    (hpw : cfg.password ≠ doc.correctPassword)
    (hpw2 : pw ≠ doc.correctPassword) :
    (extract_text_to_fp doc cfg ie).err = some PDFError.decryptionError ∧
    (∀ q, Event.processPage q ∉ (extract_text_to_fp doc cfg ie).trace) ∧
    (extract_text doc pw pn mp ca co la ie2).err =
      some PDFError.decryptionError ∧
    (∀ q, Event.processPage q ∉
      (extract_text doc pw pn mp ca co la ie2).trace) := by
  obtain ⟨dev, hdev⟩ := selectDevice_isSome_of_mem cfg.output_dir ht
  have hgp : PDFPage_get_pages doc cfg.page_numbers cfg.maxpages
      cfg.password (!cfg.disable_caching) true =
      Except.error PDFError.decryptionError := by
    simp [PDFPage_get_pages, henc, hpw]
  have hgp2 : PDFPage_get_pages doc pn mp pw ca true =
      Except.error PDFError.decryptionError := by
    simp [PDFPage_get_pages, henc, hpw2]
  have hrun : extract_text_to_fp doc cfg ie =
      { trace := fpPre2 cfg dev ++ [Event.raise PDFError.decryptionError],
        finalPages := [], processed := [], device := some dev,
        err := some PDFError.decryptionError } := by
    simp [extract_text_to_fp, hk, hdev, hgp]
  have hrun2 : extract_text doc pw pn mp ca co la ie2 =
      { trace := etPre ca co la ++
          [Event.raise PDFError.decryptionError, Event.closeSink],
        finalPages := [], processed := [], device := some (etDevice co la),
        err := some PDFError.decryptionError } := by
    simp [extract_text, hgp2]
  rw [hrun, hrun2]
  refine ⟨rfl, ?_, rfl, ?_⟩
  · intro q hq
    rcases List.mem_append.1 hq with h | h
    · rcases mem_fpPre2 h with h | ⟨d, h⟩ | h | h | h | h <;> simp_all
    · simp_all
  · intro q hq
    rcases List.mem_append.1 hq with h | h
    · unfold etPre at h; simp at h
    · simp_all

/-- Claim C7 witness at a concrete encrypted document and wrong
password. -/
theorem C7_wrong_password_witness :
    (extract_text_to_fp docEnc { password := "nope" } noErr).err =
      some PDFError.decryptionError ∧
    (extract_text docEnc "nope" none 0 true "utf-8" none noErr).err =
      some PDFError.decryptionError := by
  have h := C7_wrong_password docEnc { password := "nope" } noErr noErr
    "nope" none 0 true "utf-8" none (by decide) (by decide) (by decide)
    (by decide) (by decide)
  exact ⟨h.1, h.2.2.1⟩

/-- Claim C8: on an unencrypted, extractable document whose pages carry
intrinsic rotations in [0, 360), and for every codec and every
deterministic serialization collaborator, a successful
extract_text call (laparams defaulted) returns exactly the string that
extract_text_to_fp with variant text, the same codec, a default LAParams
instance and an in-memory sink accumulates: same device configuration
and same processed pages, hence character-for-character identical
output. -/
theorem C8_text_equivalence (render : PDFDevice → List Page → String)
    (doc : PDFDocument) (co : String) (ie : Page → Option Nat)
    (hrot : ∀ p ∈ doc.pages, 0 ≤ p.rotate ∧ p.rotate < 360)
    (henc : doc.encrypted = false) (hext : doc.extractable = true)
    (hie : ∀ p, ie p = none) :
    (extract_text doc "" none 0 true co none ie).err = none ∧
    returnedText render (extract_text doc "" none 0 true co none ie) =
      some (sinkValue render (extract_text_to_fp doc (textCfg co) ie)) := by
  have hgp : PDFPage_get_pages doc none 0 "" true true =
      Except.ok doc.pages := by
    simp [PDFPage_get_pages, henc, hext, selectPages]
  have het : extract_text doc "" none 0 true co none ie =
      { trace := etPre true co none ++ doc.pages.map Event.processPage ++
          [Event.sinkGetValue, Event.closeSink],
        finalPages := doc.pages, processed := doc.pages,
        device := some (etDevice co none), err := none } := by
    simp [extract_text, hgp, processLoopNoRotate_ok ie doc.pages hie]
  have hsel : selectDevice (textCfg co) (textCfg co).output_dir =
      some (PDFDevice.textConverter co (some {}) none) := rfl
  have hgp2 : PDFPage_get_pages doc (textCfg co).page_numbers
      (textCfg co).maxpages (textCfg co).password
      (!(textCfg co).disable_caching) true = Except.ok doc.pages := by
    simp [textCfg, PDFPage_get_pages, henc, hext, selectPages]
  have hk : "_py2_no_more_posargs" ∉ (textCfg co).kwargs.map Prod.fst := by
    simp [textCfg]
  have hloop : processLoop ie (textCfg co).rotation doc.pages =
      { events := doc.pages.map Event.processPage, finalPages := doc.pages,
        processed := doc.pages, err := none } := by
    have h0 := processLoop_ok ie 0 doc.pages hie
    rw [show (textCfg co).rotation = 0 from rfl, h0,
      map_appliedRotate_zero hrot, map_processPage_appliedRotate_zero hrot]
  have hfp : extract_text_to_fp doc (textCfg co) ie =
      { trace := fpPre2 (textCfg co)
            (PDFDevice.textConverter co (some {}) none) ++
          doc.pages.map Event.processPage ++ [Event.closeDevice],
        finalPages := doc.pages, processed := doc.pages,
        device := some (PDFDevice.textConverter co (some {}) none),
        err := none } := by
    simp [extract_text_to_fp, hk, hsel, hgp2, hloop]
  refine ⟨by rw [het], ?_⟩
  rw [het, hfp]
  simp [returnedText, sinkValue, etDevice]

/-- Claim C8 witness at a concrete document, codec and serialization
collaborator. -/
theorem C8_text_equivalence_witness :
    (extract_text doc0 "" none 0 true "utf-8" none noErr).err = none ∧
    returnedText renderLen
        (extract_text doc0 "" none 0 true "utf-8" none noErr) =
      some (sinkValue renderLen
        (extract_text_to_fp doc0 (textCfg "utf-8") noErr)) :=
  C8_text_equivalence renderLen doc0 "utf-8" noErr (by decide) (by decide)
    (by decide) (fun p => rfl)

/-- Claim C9: with the tag variant, two extract_text_to_fp runs on the
same document and configuration that differ only in the Layout
Parameters supplied (including none versus any instance) produce
identical results in every observable respect: same trace, same device,
same processed pages, hence identical sink output. -/
theorem C9_tag_laparams_independent (doc : PDFDocument) (cfg : FpConfig)
    (ie : Page → Option Nat) (la1 la2 : Option LAParams)
    (htag : cfg.output_type = "tag") :
    extract_text_to_fp doc { cfg with laparams := la1 } ie =
      extract_text_to_fp doc { cfg with laparams := la2 } ie := by
  obtain ⟨ot, co, la, mp, pn, pw, sc, rot, lm, od, stc, dbg, dc, kw⟩ := cfg
  simp only at htag
  subst htag
  rfl

/-- Claim C9 witness: a tag-variant run with no Layout Parameters equals
the same run with an arbitrary LAParams instance. -/
theorem C9_tag_laparams_independent_witness :
    extract_text_to_fp doc0 { cfgTag with laparams := none } noErr =
      extract_text_to_fp doc0 { cfgTag with laparams := some { token := 5 } }
        noErr :=
  C9_tag_laparams_independent doc0 cfgTag noErr none (some { token := 5 })
    (by decide)

/-- Claim C10: supplying the keyword argument _py2_no_more_posargs to
extract_text_to_fp, with any value whatsoever including None, makes the
call raise DeprecationWarning immediately — the whole trace is that
single raise, so it happens before the debug flag is examined and before
any collaborator is constructed; a call that omits the keyword never
raises DeprecationWarning.  (The source's condition is the chained
comparison: key in kwargs and kwargs is not None, and kwargs is always a
dict.) -/
theorem C10_legacy_kwarg (doc doc2 : PDFDocument) (cfg cfg2 : FpConfig)
    (ie ie2 : Page → Option Nat) (v : Option Nat)
    (hin : ("_py2_no_more_posargs", v) ∈ cfg.kwargs)
    (hout : "_py2_no_more_posargs" ∉ cfg2.kwargs.map Prod.fst) :
    (extract_text_to_fp doc cfg ie).trace =
      [Event.raise PDFError.deprecationWarning] ∧
    (extract_text_to_fp doc cfg ie).err =
      some PDFError.deprecationWarning ∧
    Event.raise PDFError.deprecationWarning ∉
      (extract_text_to_fp doc2 cfg2 ie2).trace := by
  have hk : "_py2_no_more_posargs" ∈ cfg.kwargs.map Prod.fst :=
    List.mem_map.2 ⟨("_py2_no_more_posargs", v), hin, rfl⟩
  refine ⟨by simp [extract_text_to_fp, hk], by simp [extract_text_to_fp, hk],
    ?_⟩
  intro hmem
  rcases fp_run_cases doc2 cfg2 ie2 with ⟨hk2, hrun⟩ |
    ⟨hk2, ⟨hsel, hrun⟩ | ⟨dev, hsel, ⟨e, hgp, hrun⟩ |
      ⟨pages, hgp, ⟨hle, hrun⟩ | ⟨hle, hrun⟩⟩⟩⟩
  · exact hout hk2
  · rw [hrun] at hmem
    rcases List.mem_append.1 hmem with h | h
    · rcases mem_preEvents h with h | ⟨d, h⟩ | h <;> simp_all
    · simp_all
  · rw [hrun] at hmem
    rcases List.mem_append.1 hmem with h | h
    · rcases mem_fpPre2 h with h | ⟨d, h⟩ | h | h | h | h <;> simp_all
    · rcases get_pages_error_shape hgp with he | he <;> simp_all
  · rw [hrun] at hmem
    simp only [List.mem_append] at hmem
    rcases hmem with (h | h) | h
    · rcases mem_fpPre2 h with h | ⟨d, h⟩ | h | h | h | h <;> simp_all
    · rcases processLoop_events_shape ie2 cfg2.rotation pages h with
        ⟨p, _, hp⟩ | ⟨n, hn⟩ <;> simp_all
    · simp_all
  · rw [hrun] at hmem
    rcases List.mem_append.1 hmem with h | h
    · rcases mem_fpPre2 h with h | ⟨d, h⟩ | h | h | h | h <;> simp_all
    · rcases processLoop_events_shape ie2 cfg2.rotation pages h with
        ⟨p, _, hp⟩ | ⟨n, hn⟩ <;> simp_all

/-- Claim C10 witness: a concrete call carrying the legacy keyword with
value None raises DeprecationWarning as its only event even though the
debug flag is set; the same call without the keyword never raises it. -/
theorem C10_legacy_kwarg_witness :
    (extract_text_to_fp doc0
        { kwargs := [("_py2_no_more_posargs", none)], debug := true }
        noErr).trace = [Event.raise PDFError.deprecationWarning] ∧
    Event.raise PDFError.deprecationWarning ∉
      (extract_text_to_fp doc0 cfgText noErr).trace := by
  have h := C10_legacy_kwarg doc0 doc0
    { kwargs := [("_py2_no_more_posargs", none)], debug := true } cfgText
    noErr noErr none (by decide) (by decide)
  exact ⟨h.1, h.2.2⟩

end HighLevel
